import Mathlib

/-!
Verification development for the shigella vaccine microsimulation
(`vivarium_gates_shigella_vaccine`).  The Python components are shallowly
embedded over `ℚ`: machine floats become exact rationals, pandas series
become per-individual values or `ι`-indexed functions, python dicts become
association lists, raised exceptions become `Except.error`, and the two
library sampling primitives that return real-valued draws
(`scipy.stats.beta.rvs`, `scipy.stats.norm.ppf`, `np.exp`) are abstracted
as function parameters since only their call structure matters here.
-/

namespace ShigellaVaccine

/-! ## String constants from `globals.py` -/

def SCHEDULE_NONE : String := "none"

def SCHEDULE_SIX_NINE : String := "6_9"

def SCHEDULE_NINE_TWELVE : String := "9_12"

def SCHEDULE_NINE_TWELVE_FIFTEEN : String := "9_12_15"

def DOSE_NONE : String := "none"

def DOSE_FIRST : String := "first"

def DOSE_SECOND : String := "second"

def DOSE_THIRD : String := "third"

def DOSE_CATCHUP : String := "catchup"

def DOSE_LATE_CATCHUP_MISSED_1 : String := "late_catchup_missed_1"

def DOSE_LATE_CATCHUP_MISSED_2 : String := "late_catchup_missed_2"

def DOSE_LATE_CATCHUP_MISSED_1_2 : String := "late_catchup_missed_1_2"

def SCENARIO_BASELINE : String := "baseline"

def SCENARIO_REFERENCE : String := "reference"

def SCENARIO_OPTIMISTIC : String := "optimistic"

def SCENARIO_SENSITIVITY_DURATION : String := "sensitivity_duration"

def SCENARIO_SENSITIVITY_EFFICACY : String := "sensitivity_efficacy"

def SCENARIO_SENSITIVITY_WANING : String := "sensitivity_waning"

/-! ## `components/utilities.py` -/

/-- Embedding of `utilities.to_years` for a numeric argument (days):
`duration / 365.25`. -/
def to_years (durationDays : ℚ) : ℚ := durationDays / (36525 / 100)

/-- Shape factor `mu * (1 - mu) / sigma ** 2 - 1` shared by both Beta shape
parameters in `utilities.sample_beta`. -/
def betaShapeFactor (mu sigma : ℚ) : ℚ := mu * (1 - mu) / sigma ^ 2 - 1

/-- First Beta shape parameter of `utilities.sample_beta`:
`alpha = mu * (mu * (1 - mu) / sigma ** 2 - 1)`. -/
def betaAlpha (mu sigma : ℚ) : ℚ := mu * betaShapeFactor mu sigma

/-- Second Beta shape parameter of `utilities.sample_beta`:
`beta = (1 - mu) * (mu * (1 - mu) / sigma ** 2 - 1)`. -/
def betaBetaShape (mu sigma : ℚ) : ℚ := (1 - mu) * betaShapeFactor mu sigma

/-- Embedding of `utilities.sample_beta`.  The call
`scipy.stats.beta.rvs(alpha, beta)` validates its arguments and raises
`ValueError("Domain error in arguments.")` unless both shape parameters are
strictly positive; the drawn value itself is abstracted as `rvs seed alpha
beta` (the function seeds `np.random` with `seed` before drawing). -/
def sample_beta (rvs : ℕ → ℚ → ℚ → ℚ) (seed : ℕ) (mu sigma : ℚ) : Except String ℚ :=
  let alpha := betaAlpha mu sigma
  let b := betaBetaShape mu sigma
  if 0 < alpha ∧ 0 < b then Except.ok (rvs seed alpha b)
  else Except.error "Domain error in arguments."

/-! ## `components/vaccine_coverage.py`: age sampling and eligibility -/

/-- Embedding of the per-dose body of `ShigellaCoverage.sample_ages` for one
individual: `ppf mean sd draw` abstracts `scipy.stats.norm(mean, sd).ppf`,
then values above `age_max` are replaced by `age_max * 0.99` and values
below `age_min` by `age_min * 1.01`, in that order. -/
def sample_age (ppf : ℚ → ℚ → ℚ → ℚ) (ageMin ageMax draw : ℚ) : ℚ :=
  let mean_age := (ageMin + ageMax) / 2
  let age_std_dev := (mean_age - ageMin) / 3
  let age_at_dose := ppf mean_age age_std_dev draw
  let age_clipped_high := if ageMax < age_at_dose then ageMax * (99 / 100) else age_at_dose
  if age_clipped_high < ageMin then ageMin * (101 / 100) else age_clipped_high

/-- Embedding of `ShigellaCoverage.dose_age_mask` for one individual:
`(pop.age < dose_age) & (dose_age <= pop.age + to_years(step_size))`, with
the step size given in days. -/
def dose_age_mask (age doseAge stepSizeDays : ℚ) : Bool :=
  decide (age < doseAge) && decide (doseAge ≤ age + to_years stepSizeDays)

/-! ## `components/vaccine_coverage.py`: coverage composition -/

/-- Raw coverage covariate series (`coverage[6]`, `coverage[9]`,
`coverage[12]`, `coverage[15]`), indexed by year index `ι`, after the
demographic slicing in `get_dose_coverages`. -/
structure CoverageData (ι : Type) where
  cov6 : ι → ℚ
  cov9 : ι → ℚ
  cov12 : ι → ℚ
  cov15 : ι → ℚ

/-- Embedding of `ShigellaCoverage.get_dose_coverages`: the dict from dose
name to coverage series built per schedule.  Series division is elementwise
as in pandas; the catchup-family doses use the single sampled
`catchup_proportion` scalar as a constant series. -/
def get_dose_coverages {ι : Type} (schedule : String) (cov : CoverageData ι)
    (catchup_proportion : ℚ) : Except String (List (String × (ι → ℚ))) :=
  if schedule = SCHEDULE_NONE then Except.ok []
  else if schedule = SCHEDULE_SIX_NINE then
    Except.ok [(DOSE_FIRST, cov.cov6), (DOSE_SECOND, cov.cov9), (DOSE_CATCHUP, cov.cov9)]
  else if schedule = SCHEDULE_NINE_TWELVE then
    Except.ok [(DOSE_FIRST, cov.cov9),
               (DOSE_SECOND, fun y => cov.cov12 y / cov.cov9 y),
               (DOSE_CATCHUP, fun _ => catchup_proportion)]
  else if schedule = SCHEDULE_NINE_TWELVE_FIFTEEN then
    Except.ok [(DOSE_FIRST, cov.cov9),
               (DOSE_SECOND, fun y => cov.cov12 y / cov.cov9 y),
               (DOSE_THIRD, fun y => cov.cov15 y / cov.cov12 y),
               (DOSE_CATCHUP, fun _ => catchup_proportion),
               (DOSE_LATE_CATCHUP_MISSED_1, fun _ => catchup_proportion),
               (DOSE_LATE_CATCHUP_MISSED_2, fun _ => catchup_proportion),
               (DOSE_LATE_CATCHUP_MISSED_1_2, fun _ => catchup_proportion)]
  else Except.error ("Unknown vaccine schedule " ++ schedule ++ ".")

/-! ## `data/validate.py`: value-range validation -/

/-- One row of a loaded data table as seen by `validate_value_range`: its
`year_start`, its `value` (a rational; `isNa` marks a NaN or Inf entry,
which `ℚ` cannot represent directly). -/
structure DataRow where
  year_start : Int
  value : ℚ
  isNa : Bool

/-- Substring search on character lists, used to embed the python `in`
operator on strings. -/
def hasSub (needle : List Char) : List Char → Bool
  | [] => needle == []
  | c :: rest => needle.isPrefixOf (c :: rest) || hasSub needle rest

/-- Substring test used to embed the python `in` operator on strings. -/
def containsSub (needle hay : String) : Bool := hasSub needle.toList hay.toList

/-- Embedding of the `max_value` selection chain at the top of
`validate_value_range`: `proportion`, `population.structure`,
`cause_specific_mortality` and `incidence` keys have a recorded max; any
other key raises `NotImplementedError`, modelled as `none`. -/
def maxValueFor (entity_key : String) : Option ℚ :=
  if containsSub "proportion" entity_key then some 1
  else if containsSub "population.structure" entity_key then some 100000000
  else if containsSub "cause_specific_mortality" entity_key then some 6
  else if containsSub "incidence" entity_key then some 50
  else none

/-- Embedding of `validate.validate_value_range`.  The data is first
restricted to `year_start >= 2025`.  A negative value raises
`DataMissingError`; a value above the recorded maximum only emits a
`logger.debug` message (returned in the `ok` payload, not an error); a NaN
or Inf value raises `DataMissingError`. -/
def validate_value_range (entity_key : String) (data : List DataRow) :
    Except String (List String) :=
  match maxValueFor entity_key with
  | none => Except.error ("No max value on record for " ++ entity_key ++ ".")
  | some max_value =>
    let restricted := data.filter fun r => decide (2025 ≤ r.year_start)
    if restricted.any fun r => decide (r.value < 0) then
      Except.error ("Data for " ++ entity_key ++ " does not contain all values above 0.")
    else
      let logs :=
        if restricted.any fun r => decide (max_value < r.value) then
          ["Data for " ++ entity_key ++ " contains values above maximum."]
        else []
      if restricted.any fun r => r.isNa then
        Except.error ("Data for " ++ entity_key ++ " contains NaN or Inf values.")
      else Except.ok logs

/-! ## `components/vaccine_effect.py`: scenario configuration -/

/-- Value stored in the scenario configuration dict: either a number or a
nested dict of numbers (the `efficacy` entry). -/
inductive ConfigVal where
  | num : ℚ → ConfigVal
  | table : List (String × ℚ) → ConfigVal
deriving DecidableEq

/-- Setting one key of a python dict: replace the binding in place when the
key is present, otherwise append a new binding. -/
def setKey (d : List (String × ConfigVal)) (k : String) (v : ConfigVal) :
    List (String × ConfigVal) :=
  if d.any fun p => p.1 == k then d.map fun p => if p.1 == k then (k, v) else p
  else d ++ [(k, v)]

/-- Embedding of python `dict.update`: apply each binding of the update dict
in order. -/
def dictUpdate (base : List (String × ConfigVal)) :
    List (String × ConfigVal) → List (String × ConfigVal)
  | [] => base
  | (k, v) :: rest => dictUpdate (setKey base k v) rest

/-- Baseline parameter record built at the top of
`ShigellaEffect.get_configuration`. -/
def baseConfig : List (String × ConfigVal) :=
  [("immunity_duration", ConfigVal.num 720),
   ("efficacy", ConfigVal.table [("mean", 1 / 2), ("sd", 1 / 10)]),
   ("single_dose_protected", ConfigVal.num (7 / 10)),
   ("waning_rate", ConfigVal.num (38 / 1000)),
   ("onset_delay", ConfigVal.num 14)]

/-- Optimistic efficacy override `{mean: 0.7, sd: 0.15}`. -/
def optimisticEfficacy : ConfigVal := ConfigVal.table [("mean", 7 / 10), ("sd", 15 / 100)]

/-- Embedding of `ShigellaEffect.get_configuration`: per-scenario `update`
dict applied to the baseline record with `config.update(update)`.  Note the
`optimistic` branch writes the key `duration` (not `immunity_duration`),
exactly as the source does. -/
def get_configuration (scenario : String) : Except String (List (String × ConfigVal)) :=
  if scenario = SCENARIO_REFERENCE then
    Except.ok (dictUpdate baseConfig [])
  else if scenario = SCENARIO_OPTIMISTIC then
    Except.ok (dictUpdate baseConfig
      [("duration", ConfigVal.num 1460),
       ("efficacy", optimisticEfficacy),
       ("waning_rate", ConfigVal.num (134 / 10000))])
  else if scenario = SCENARIO_SENSITIVITY_DURATION then
    Except.ok (dictUpdate baseConfig [("immunity_duration", ConfigVal.num 1460)])
  else if scenario = SCENARIO_SENSITIVITY_EFFICACY then
    Except.ok (dictUpdate baseConfig [("efficacy", optimisticEfficacy)])
  else if scenario = SCENARIO_SENSITIVITY_WANING then
    Except.ok (dictUpdate baseConfig [("waning_rate", ConfigVal.num (134 / 10000))])
  else Except.error "Invalid scenario specified."

/-- Embedding of `ShigellaEffect.sample_efficacy`: the source reads
`config['mean']` and `config['sd']` from the scenario record; a missing key
is a python `KeyError`. -/
def sample_efficacy (rvs : ℕ → ℚ → ℚ → ℚ) (seed : ℕ)
    (config : List (String × ConfigVal)) : Except String ℚ :=
  match config.lookup "mean", config.lookup "sd" with
  | some (ConfigVal.num mu), some (ConfigVal.num sigma) => sample_beta rvs seed mu sigma
  | _, _ => Except.error "KeyError: mean"

/-- The efficacy-relevant part of `ShigellaEffect.setup`: resolve the
scenario configuration, then sample the run efficacy scalar from it. -/
def effectSetupEfficacy (rvs : ℕ → ℚ → ℚ → ℚ) (seed : ℕ) (scenario : String) :
    Except String ℚ :=
  match get_configuration scenario with
  | Except.error e => Except.error e
  | Except.ok config => sample_efficacy rvs seed config

/-! ## `components/vaccine_effect.py`: protection hook -/

/-- Per-individual state read by `ShigellaEffect.apply_vaccine_protection`:
the population-view columns plus the individual protection threshold; the
event time and the clock are timestamps measured in days. -/
structure Simulant where
  vaccine_dose_count : ℕ
  doses_for_protection : ℕ
  vaccine_event_time : ℚ

/-- Protection factor computed by
`ShigellaEffect.apply_vaccine_protection` for one individual: `expf`
abstracts `np.exp`; all durations and times are in days, matching the
division by `pd.Timedelta(days=1)` in the source. -/
def protectionFactor (expf : ℚ → ℚ)
    (efficacy waning_rate onset_delay immunity_duration clock : ℚ)
    (s : Simulant) : ℚ :=
  let time_since_vaccination := clock - s.vaccine_event_time
  let time_in_waning := clock - (s.vaccine_event_time + onset_delay + immunity_duration)
  let is_protected : Bool := decide (s.doses_for_protection ≤ s.vaccine_dose_count)
  let in_delay : Bool := is_protected && decide (s.vaccine_dose_count = 1)
      && decide (time_since_vaccination < onset_delay)
  let in_waning : Bool := is_protected && decide (0 < time_in_waning)
  let in_full_protection : Bool := is_protected && !in_delay && !in_waning
  let base := if in_full_protection || in_waning then efficacy else 0
  if in_waning then base * expf (-(waning_rate * time_in_waning)) else base

/-- Embedding of `ShigellaEffect.apply_vaccine_protection` for one
individual: the returned modified incidence
`incidence_rate * (1 - protection)`. -/
def apply_vaccine_protection (expf : ℚ → ℚ)
    (efficacy waning_rate onset_delay immunity_duration clock : ℚ)
    (s : Simulant) (incidence_rate : ℚ) : ℚ :=
  incidence_rate * (1 - protectionFactor expf efficacy waning_rate onset_delay
    immunity_duration clock s)

/-! ## `components/vaccine_coverage.py`: dose state machine -/

/-- Per-individual vaccination columns written by `ShigellaCoverage`. -/
structure VaccineState where
  vaccine_dose : String
  vaccine_dose_count : ℕ
  vaccine_event_time : Option ℚ
deriving DecidableEq

/-- Embedding of one branch of `ShigellaCoverage.dose` for one individual:
the individual is dose-eligible when currently in state `prior_dose` and
inside the age mask; `accepted` abstracts the outcome of
`filter_for_probability` for this individual (only consulted for eligible
individuals).  Accepted individuals get `vaccine_dose = dose`, an
incremented `vaccine_dose_count` and `vaccine_event_time` set to the event
time; everyone else is unchanged. -/
def doseStep (p : VaccineState) (dose prior_dose : String)
    (age_mask accepted : Bool) (event_time : ℚ) : VaccineState :=
  if p.vaccine_dose = prior_dose ∧ age_mask ∧ accepted then
    { vaccine_dose := dose,
      vaccine_dose_count := p.vaccine_dose_count + 1,
      vaccine_event_time := some event_time }
  else p

/-- Transition table of `ShigellaCoverage.on_time_step`, in source order:
`(dose, prior_dose, dose whose age mask gates the branch)`.  The
catchup branch reuses the second-dose age mask and the late-catchup
branches reuse the third-dose age mask, as in the source. -/
def scheduleBranches (schedule : String) : List (String × String × String) :=
  if schedule = SCHEDULE_NONE then []
  else
    let base := [(DOSE_FIRST, DOSE_NONE, DOSE_FIRST),
                 (DOSE_SECOND, DOSE_FIRST, DOSE_SECOND),
                 (DOSE_CATCHUP, DOSE_NONE, DOSE_SECOND)]
    if schedule = SCHEDULE_NINE_TWELVE_FIFTEEN then
      base ++ [(DOSE_THIRD, DOSE_SECOND, DOSE_THIRD),
               (DOSE_LATE_CATCHUP_MISSED_2, DOSE_FIRST, DOSE_THIRD),
               (DOSE_LATE_CATCHUP_MISSED_1, DOSE_CATCHUP, DOSE_THIRD),
               (DOSE_LATE_CATCHUP_MISSED_1_2, DOSE_NONE, DOSE_THIRD)]
    else base

/-- Embedding of `ShigellaCoverage.on_time_step` for one alive individual:
fold the schedule branches over the vaccination state.  `age_mask d` is the
age-eligibility mask of dose `d` this step and `acc d` the
`filter_for_probability` outcome keyed by dose `d`. -/
def on_time_step (schedule : String) (p : VaccineState)
    (age_mask acc : String → Bool) (event_time : ℚ) : VaccineState :=
  (scheduleBranches schedule).foldl
    (fun q b => doseStep q b.1 b.2.1 (age_mask b.2.2) (acc b.1) event_time) p

/-- Helper: whether an `Except` computation finished without raising. -/
def exceptIsOk {ε α : Type} : Except ε α → Bool
  | Except.ok _ => true
  | Except.error _ => false

/-! ## Theorems -/

/-- C5: an individual is age-eligible for a dose in a step iff
`age < dose_target_age <= age + step_size_in_years` (strict lower bound,
inclusive upper bound); with target age 0.75 years, a step covering ages
[0.70, 0.80] is eligible and a step covering [0.76, 0.85] is not. -/
theorem C5_dose_age_mask_characterization (age doseAge stepSizeDays : ℚ) :
    (dose_age_mask age doseAge stepSizeDays = true ↔
      age < doseAge ∧ doseAge ≤ age + to_years stepSizeDays)
    ∧ dose_age_mask (7 / 10) (3 / 4) (1461 / 40) = true
    ∧ dose_age_mask (19 / 25) (3 / 4) (13149 / 400) = false := by
  refine ⟨?_, ?_, ?_⟩
  · simp [dose_age_mask]
  · have : to_years (1461 / 40) = 1 / 10 := by norm_num [to_years]
    simp only [dose_age_mask, this]
    norm_num
  · simp only [dose_age_mask]
    norm_num

/-- C5 witness: the mask evaluated at the concrete example inputs. -/
theorem C5_dose_age_mask_characterization_witness :
    dose_age_mask (7 / 10) (3 / 4) (1461 / 40) = true :=
  (C5_dose_age_mask_characterization 0 1 1).2.1

/-- C7: `sample_beta` computes the method-of-moments shape parameters
`alpha = mu*(mu*(1-mu)/sigma^2 - 1)` and `beta = (1-mu)*(mu*(1-mu)/sigma^2 - 1)`;
for `mu = 0.34`, `sigma = 0.21` both shapes are strictly positive and a
sample is returned, while for any `0 < mu < 1` with
`sigma^2 >= mu*(1-mu)` the computation raises instead of returning a
scalar. -/
theorem C7_sample_beta_domain (rvs : ℕ → ℚ → ℚ → ℚ) (seed : ℕ) (mu sigma : ℚ)
    (hmu0 : 0 < mu) (hmu1 : mu < 1) (hsig : mu * (1 - mu) ≤ sigma ^ 2) :
    (betaAlpha mu sigma = mu * (mu * (1 - mu) / sigma ^ 2 - 1)
      ∧ betaBetaShape mu sigma = (1 - mu) * (mu * (1 - mu) / sigma ^ 2 - 1))
    ∧ (0 < betaAlpha (34 / 100) (21 / 100) ∧ 0 < betaBetaShape (34 / 100) (21 / 100)
      ∧ sample_beta rvs seed (34 / 100) (21 / 100)
          = Except.ok (rvs seed (betaAlpha (34 / 100) (21 / 100)) (betaBetaShape (34 / 100) (21 / 100))))
    ∧ sample_beta rvs seed mu sigma = Except.error "Domain error in arguments." := by
  have hconc : 0 < betaAlpha (34 / 100) (21 / 100) ∧ 0 < betaBetaShape (34 / 100) (21 / 100) := by
    constructor <;> norm_num [betaAlpha, betaBetaShape, betaShapeFactor]
  have hσ2 : 0 < sigma ^ 2 := lt_of_lt_of_le (mul_pos hmu0 (by linarith)) hsig
  have hq : mu * (1 - mu) / sigma ^ 2 ≤ 1 := (div_le_one hσ2).mpr hsig
  have ha : betaAlpha mu sigma ≤ 0 := by
    have hnn : 0 ≤ mu * (1 - (mu * (1 - mu) / sigma ^ 2)) :=
      mul_nonneg hmu0.le (sub_nonneg.mpr hq)
    unfold betaAlpha betaShapeFactor
    nlinarith [hnn]
  refine ⟨⟨rfl, rfl⟩, ⟨hconc.1, hconc.2, ?_⟩, ?_⟩
  · simp only [sample_beta]
    rw [if_pos hconc]
  · simp only [sample_beta]
    rw [if_neg]
    intro hcontra
    exact absurd hcontra.1 (not_lt.mpr ha)

/-- C7 witness: at `mu = 1/2`, `sigma = 3/5` (so `sigma^2 > mu*(1-mu)`)
the sampler raises instead of returning a sample. -/
theorem C7_sample_beta_domain_witness :
    (0 : ℚ) < 1 / 2 ∧ (1 : ℚ) / 2 < 1 ∧ (1 : ℚ) / 2 * (1 - 1 / 2) ≤ (3 / 5 : ℚ) ^ 2
    ∧ sample_beta (fun _ _ _ => 0) 0 (1 / 2) (3 / 5) = Except.error "Domain error in arguments." :=
  ⟨by norm_num, by norm_num, by norm_num,
    (C7_sample_beta_domain (fun _ _ _ => 0) 0 (1 / 2) (3 / 5)
      (by norm_num) (by norm_num) (by norm_num)).2.2⟩

/-- C9: each sampled dose target age is the inverse normal CDF of the
uniform draw with mean `(age_min + age_max)/2` and standard deviation
`(mean - age_min)/3`, post-processed so that a value above `age_max`
becomes `age_max * 0.99`, a value below `age_min` becomes
`age_min * 1.01`, and an in-window value is kept (stated under the
window sanity conditions `0 <= age_min <= age_max * 0.99`, which hold for
every schedule window in the source). -/
theorem C9_sample_age_clipping (ppf : ℚ → ℚ → ℚ → ℚ) (ageMin ageMax draw : ℚ)
    (h0 : 0 ≤ ageMin) (h : ageMin ≤ ageMax * (99 / 100)) :
    (ageMax < ppf ((ageMin + ageMax) / 2) (((ageMin + ageMax) / 2 - ageMin) / 3) draw →
      sample_age ppf ageMin ageMax draw = ageMax * (99 / 100))
    ∧ (ppf ((ageMin + ageMax) / 2) (((ageMin + ageMax) / 2 - ageMin) / 3) draw < ageMin →
      sample_age ppf ageMin ageMax draw = ageMin * (101 / 100))
    ∧ (ageMin ≤ ppf ((ageMin + ageMax) / 2) (((ageMin + ageMax) / 2 - ageMin) / 3) draw →
      ppf ((ageMin + ageMax) / 2) (((ageMin + ageMax) / 2 - ageMin) / 3) draw ≤ ageMax →
      sample_age ppf ageMin ageMax draw
        = ppf ((ageMin + ageMax) / 2) (((ageMin + ageMax) / 2 - ageMin) / 3) draw) := by
  refine ⟨?_, ?_, ?_⟩
  · intro hv
    simp only [sample_age]
    split_ifs <;> first | rfl | linarith
  · intro hv
    simp only [sample_age]
    split_ifs <;> first | rfl | linarith
  · intro hv1 hv2
    simp only [sample_age]
    split_ifs <;> first | rfl | linarith

/-- C9 witness: a draw mapped above the window by the inverse CDF is
clipped to `age_max * 0.99`. -/
theorem C9_sample_age_clipping_witness :
    (0 : ℚ) ≤ 7 / 10 ∧ (7 : ℚ) / 10 ≤ 8 / 10 * (99 / 100)
    ∧ sample_age (fun _ _ _ => 2) (7 / 10) (8 / 10) 0 = 8 / 10 * (99 / 100) :=
  ⟨by norm_num, by norm_num,
    (C9_sample_age_clipping (fun _ _ _ => 2) (7 / 10) (8 / 10) 0
      (by norm_num) (by norm_num)).1 (by norm_num)⟩

/-- Helper: case characterization of the protection factor. -/
theorem protectionFactor_eq (expf : ℚ → ℚ)
    (efficacy waning_rate onset_delay immunity_duration clock : ℚ) (s : Simulant) :
    protectionFactor expf efficacy waning_rate onset_delay immunity_duration clock s =
      if s.doses_for_protection ≤ s.vaccine_dose_count then
        if 0 < clock - (s.vaccine_event_time + onset_delay + immunity_duration) then
          efficacy * expf (-(waning_rate * (clock - (s.vaccine_event_time + onset_delay + immunity_duration))))
        else if s.vaccine_dose_count = 1 ∧ clock - s.vaccine_event_time < onset_delay then 0
        else efficacy
      else 0 := by
  by_cases hprot : s.doses_for_protection ≤ s.vaccine_dose_count
  · by_cases hwan : s.vaccine_event_time + onset_delay + immunity_duration < clock
    · simp [protectionFactor, hprot, hwan]
    · by_cases hdel : s.vaccine_dose_count = 1 ∧ clock - s.vaccine_event_time < onset_delay
      · simp [protectionFactor, hprot, hwan, hdel.1, hdel.2]
      · rcases not_and_or.mp hdel with hna | hnb
        · simp [protectionFactor, hprot, hwan, hna]
        · simp [protectionFactor, hprot, hwan, hnb]
  · simp [protectionFactor, hprot]

/-- Helper: the protection factor is always one of `0`, `efficacy`, or
`efficacy` times the waning multiplier. -/
theorem protectionFactor_value_cases (expf : ℚ → ℚ)
    (efficacy waning_rate onset_delay immunity_duration clock : ℚ) (s : Simulant) :
    protectionFactor expf efficacy waning_rate onset_delay immunity_duration clock s = 0
    ∨ protectionFactor expf efficacy waning_rate onset_delay immunity_duration clock s = efficacy
    ∨ protectionFactor expf efficacy waning_rate onset_delay immunity_duration clock s
        = efficacy * expf (-(waning_rate * (clock - (s.vaccine_event_time + onset_delay + immunity_duration)))) := by
  simp only [protectionFactor]
  split_ifs
  all_goals first
    | (left; rfl)
    | (left; exact zero_mul _)
    | (right; left; rfl)
    | (right; right; rfl)

/-- C4: the protection hook returns `incidence_rate * (1 - protection)`,
where protection is 0 below the dose threshold and for single-dose
recipients still inside the onset delay, equals the efficacy scalar on the
full-immunity plateau, and equals `efficacy * exp(-waning_rate *
time_in_waning_in_days)` once time since the dose exceeds
`onset_delay + immunity_duration`. -/
theorem C4_protection_phases (expf : ℚ → ℚ)
    (efficacy waning_rate onset_delay immunity_duration clock : ℚ)
    (s : Simulant) (incidence_rate : ℚ) (hdur : 0 ≤ immunity_duration) :
    apply_vaccine_protection expf efficacy waning_rate onset_delay immunity_duration clock s incidence_rate
      = incidence_rate *
        (1 - protectionFactor expf efficacy waning_rate onset_delay immunity_duration clock s)
    ∧ (s.vaccine_dose_count < s.doses_for_protection →
        protectionFactor expf efficacy waning_rate onset_delay immunity_duration clock s = 0)
    ∧ (s.doses_for_protection ≤ s.vaccine_dose_count → s.vaccine_dose_count = 1 →
        clock - s.vaccine_event_time < onset_delay →
        protectionFactor expf efficacy waning_rate onset_delay immunity_duration clock s = 0)
    ∧ (s.doses_for_protection ≤ s.vaccine_dose_count →
        onset_delay ≤ clock - s.vaccine_event_time →
        clock - s.vaccine_event_time ≤ onset_delay + immunity_duration →
        protectionFactor expf efficacy waning_rate onset_delay immunity_duration clock s = efficacy)
    ∧ (s.doses_for_protection ≤ s.vaccine_dose_count →
        onset_delay + immunity_duration < clock - s.vaccine_event_time →
        protectionFactor expf efficacy waning_rate onset_delay immunity_duration clock s
          = efficacy * expf (-(waning_rate * (clock - (s.vaccine_event_time + onset_delay + immunity_duration))))) := by
  have heq := protectionFactor_eq expf efficacy waning_rate onset_delay immunity_duration clock s
  refine ⟨rfl, ?_, ?_, ?_, ?_⟩
  · intro hlt
    rw [heq, if_neg (not_le.mpr hlt)]
  · intro hp h1 hd
    rw [heq, if_pos hp, if_neg (by intro hx; linarith), if_pos ⟨h1, hd⟩]
  · intro hp h1 h2
    rw [heq, if_pos hp, if_neg (by intro hx; linarith),
      if_neg (fun hx => absurd hx.2 (not_lt.mpr h1))]
  · intro hp hw
    rw [heq, if_pos hp, if_pos (by linarith)]

/-- C4 witness: the hook applied at a concrete two-dose individual. -/
theorem C4_protection_phases_witness :
    (0 : ℚ) ≤ 720
    ∧ apply_vaccine_protection (fun _ => 1) (1 / 2) (38 / 1000) 14 720 100
        { vaccine_dose_count := 2, doses_for_protection := 2, vaccine_event_time := 0 } 10
      = 10 * (1 - protectionFactor (fun _ => 1) (1 / 2) (38 / 1000) 14 720 100
        { vaccine_dose_count := 2, doses_for_protection := 2, vaccine_event_time := 0 }) :=
  ⟨by norm_num,
    (C4_protection_phases (fun _ => 1) (1 / 2) (38 / 1000) 14 720 100
      { vaccine_dose_count := 2, doses_for_protection := 2, vaccine_event_time := 0 } 10
      (by norm_num)).1⟩

/-- C10: the protection factor lies in `[0, efficacy]`, so the modified
incidence is between `(1 - efficacy) * incidence` and `incidence`, and is
never negative, whenever the incidence is non-negative, `efficacy` is in
`[0,1]`, and the waning multiplier (the value `np.exp` takes at the waning
exponent, which is non-positive there) lies in `[0,1]`. -/
theorem C10_protection_bounds (expf : ℚ → ℚ)
    (efficacy waning_rate onset_delay immunity_duration clock : ℚ)
    (s : Simulant) (incidence_rate : ℚ)
    (hinc : 0 ≤ incidence_rate) (heff0 : 0 ≤ efficacy) (heff1 : efficacy ≤ 1)
    (hexp0 : 0 ≤ expf (-(waning_rate * (clock - (s.vaccine_event_time + onset_delay + immunity_duration)))))
    (hexp1 : expf (-(waning_rate * (clock - (s.vaccine_event_time + onset_delay + immunity_duration)))) ≤ 1) :
    0 ≤ protectionFactor expf efficacy waning_rate onset_delay immunity_duration clock s
    ∧ protectionFactor expf efficacy waning_rate onset_delay immunity_duration clock s ≤ efficacy
    ∧ (1 - efficacy) * incidence_rate
        ≤ apply_vaccine_protection expf efficacy waning_rate onset_delay immunity_duration clock s incidence_rate
    ∧ apply_vaccine_protection expf efficacy waning_rate onset_delay immunity_duration clock s incidence_rate
        ≤ incidence_rate
    ∧ 0 ≤ apply_vaccine_protection expf efficacy waning_rate onset_delay immunity_duration clock s incidence_rate := by
  have hbounds : 0 ≤ protectionFactor expf efficacy waning_rate onset_delay immunity_duration clock s
      ∧ protectionFactor expf efficacy waning_rate onset_delay immunity_duration clock s ≤ efficacy := by
    rcases protectionFactor_value_cases expf efficacy waning_rate onset_delay immunity_duration
      clock s with h | h | h <;> rw [h]
    · exact ⟨le_refl 0, heff0⟩
    · exact ⟨heff0, le_refl efficacy⟩
    · exact ⟨mul_nonneg heff0 hexp0, mul_le_of_le_one_right heff0 hexp1⟩
  obtain ⟨hp0, hpe⟩ := hbounds
  refine ⟨hp0, hpe, ?_, ?_, ?_⟩
  · simp only [apply_vaccine_protection]
    nlinarith [mul_nonneg hinc (sub_nonneg.mpr hpe)]
  · simp only [apply_vaccine_protection]
    nlinarith [mul_nonneg hinc hp0]
  · simp only [apply_vaccine_protection]
    have h1 : protectionFactor expf efficacy waning_rate onset_delay immunity_duration clock s ≤ 1 :=
      hpe.trans heff1
    exact mul_nonneg hinc (by linarith)

/-- C10 witness: the bound evaluated at a concrete waning individual. -/
theorem C10_protection_bounds_witness :
    (0 : ℚ) ≤ 10 ∧ (0 : ℚ) ≤ 1 / 2 ∧ (1 : ℚ) / 2 ≤ 1
    ∧ apply_vaccine_protection (fun _ => 1 / 2) (1 / 2) (38 / 1000) 14 720 800
        { vaccine_dose_count := 2, doses_for_protection := 2, vaccine_event_time := 0 } 10 ≤ 10 :=
  ⟨by norm_num, by norm_num, by norm_num,
    (C10_protection_bounds (fun _ => 1 / 2) (1 / 2) (38 / 1000) 14 720 800
      { vaccine_dose_count := 2, doses_for_protection := 2, vaccine_event_time := 0 } 10
      (by norm_num) (by norm_num) (by norm_num) (by norm_num) (by norm_num)).2.2.2.1⟩

/-- Helper: a single dose branch never decreases the dose count. -/
theorem doseStep_count_le (p : VaccineState) (dose prior_dose : String)
    (age_mask accepted : Bool) (event_time : ℚ) :
    p.vaccine_dose_count ≤ (doseStep p dose prior_dose age_mask accepted event_time).vaccine_dose_count := by
  unfold doseStep
  split_ifs
  · exact Nat.le_succ _
  · exact le_refl _

/-- Helper: a full time step never decreases the dose count. -/
theorem on_time_step_count_le (schedule : String) (p : VaccineState)
    (age_mask acc : String → Bool) (t : ℚ) :
    p.vaccine_dose_count ≤ (on_time_step schedule p age_mask acc t).vaccine_dose_count := by
  unfold on_time_step
  generalize scheduleBranches schedule = l
  induction l generalizing p with
  | nil => exact le_refl _
  | cons b rest ih =>
    simp only [List.foldl]
    exact le_trans (doseStep_count_le p b.1 b.2.1 (age_mask b.2.2) (acc b.1) t)
      (ih (doseStep p b.1 b.2.1 (age_mask b.2.2) (acc b.1) t))

/-- C8: each dose branch increments the dose count by at most 1, updates
`vaccine_dose`, `vaccine_dose_count` and `vaccine_event_time` for exactly
the accepted eligible individuals, leaves everyone else unchanged, and a
full time step (hence the whole run) never decreases the dose count. -/
theorem C8_dose_count_monotone (p : VaccineState) (dose prior_dose : String)
    (age_mask accepted : Bool) (event_time : ℚ)
    (schedule : String) (masks acc : String → Bool) (t : ℚ) :
    p.vaccine_dose_count ≤ (doseStep p dose prior_dose age_mask accepted event_time).vaccine_dose_count
    ∧ (doseStep p dose prior_dose age_mask accepted event_time).vaccine_dose_count
        ≤ p.vaccine_dose_count + 1
    ∧ (p.vaccine_dose = prior_dose ∧ age_mask = true ∧ accepted = true →
        doseStep p dose prior_dose age_mask accepted event_time
          = { vaccine_dose := dose, vaccine_dose_count := p.vaccine_dose_count + 1,
              vaccine_event_time := some event_time })
    ∧ (¬(p.vaccine_dose = prior_dose ∧ age_mask = true ∧ accepted = true) →
        doseStep p dose prior_dose age_mask accepted event_time = p)
    ∧ p.vaccine_dose_count ≤ (on_time_step schedule p masks acc t).vaccine_dose_count := by
  refine ⟨doseStep_count_le p dose prior_dose age_mask accepted event_time, ?_, ?_, ?_,
    on_time_step_count_le schedule p masks acc t⟩
  · unfold doseStep
    split_ifs
    · exact le_refl _
    · exact Nat.le_succ _
  · intro h
    unfold doseStep
    rw [if_pos (show p.vaccine_dose = prior_dose ∧ age_mask = true ∧ accepted = true from
      ⟨h.1, h.2.1, h.2.2⟩)]
  · intro h
    unfold doseStep
    rw [if_neg (fun hc => h ⟨hc.1, hc.2.1, hc.2.2⟩)]

/-- C8 witness: a full three-dose-schedule step on a fresh individual. -/
theorem C8_dose_count_monotone_witness :
    ({ vaccine_dose := "none", vaccine_dose_count := 0, vaccine_event_time := none } : VaccineState).vaccine_dose_count
      ≤ (on_time_step "9_12_15"
          { vaccine_dose := "none", vaccine_dose_count := 0, vaccine_event_time := none }
          (fun _ => true) (fun _ => true) 0).vaccine_dose_count :=
  (C8_dose_count_monotone
    { vaccine_dose := "none", vaccine_dose_count := 0, vaccine_event_time := none }
    "first" "none" true true 0 "9_12_15" (fun _ => true) (fun _ => true) 0).2.2.2.2

/-- C3 (code bug): for every handled scenario the efficacy setup crashes
with a `KeyError`, because `sample_efficacy` reads `config['mean']` and
`config['sd']` although the mean and sd live in the nested
`config['efficacy']` dict; the unhandled `baseline` scenario raises the
invalid-scenario error instead. -/
theorem C3_efficacy_setup_raises (rvs : ℕ → ℚ → ℚ → ℚ) (seed : ℕ) :
    effectSetupEfficacy rvs seed SCENARIO_REFERENCE = Except.error "KeyError: mean"
    ∧ effectSetupEfficacy rvs seed SCENARIO_OPTIMISTIC = Except.error "KeyError: mean"
    ∧ effectSetupEfficacy rvs seed SCENARIO_SENSITIVITY_DURATION = Except.error "KeyError: mean"
    ∧ effectSetupEfficacy rvs seed SCENARIO_SENSITIVITY_EFFICACY = Except.error "KeyError: mean"
    ∧ effectSetupEfficacy rvs seed SCENARIO_SENSITIVITY_WANING = Except.error "KeyError: mean"
    ∧ effectSetupEfficacy rvs seed SCENARIO_BASELINE = Except.error "Invalid scenario specified." :=
  ⟨rfl, rfl, rfl, rfl, rfl, rfl⟩

/-- C3 witness: evaluation at the reference scenario. -/
theorem C3_efficacy_setup_raises_witness :
    effectSetupEfficacy (fun _ _ _ => 0) 0 SCENARIO_REFERENCE = Except.error "KeyError: mean" :=
  (C3_efficacy_setup_raises (fun _ _ _ => 0) 0).1

/-- C6 (code bug): the `optimistic` scenario leaves `immunity_duration` at
the baseline 720 because its update dict writes the dead key `duration`;
the efficacy and waning overrides do land; each `sensitivity_*` scenario
overrides exactly its one named parameter; an unknown scenario name is a
fatal configuration error. -/
theorem C6_scenario_overrides :
    get_configuration SCENARIO_OPTIMISTIC = Except.ok
      [("immunity_duration", ConfigVal.num 720),
       ("efficacy", ConfigVal.table [("mean", 7 / 10), ("sd", 15 / 100)]),
       ("single_dose_protected", ConfigVal.num (7 / 10)),
       ("waning_rate", ConfigVal.num (134 / 10000)),
       ("onset_delay", ConfigVal.num 14),
       ("duration", ConfigVal.num 1460)]
    ∧ (get_configuration SCENARIO_OPTIMISTIC).toOption.bind (List.lookup "immunity_duration")
        = some (ConfigVal.num 720)
    ∧ (720 : ℚ) ≠ 1460
    ∧ get_configuration SCENARIO_REFERENCE = Except.ok baseConfig
    ∧ get_configuration SCENARIO_SENSITIVITY_DURATION = Except.ok
      [("immunity_duration", ConfigVal.num 1460),
       ("efficacy", ConfigVal.table [("mean", 1 / 2), ("sd", 1 / 10)]),
       ("single_dose_protected", ConfigVal.num (7 / 10)),
       ("waning_rate", ConfigVal.num (38 / 1000)),
       ("onset_delay", ConfigVal.num 14)]
    ∧ get_configuration SCENARIO_SENSITIVITY_EFFICACY = Except.ok
      [("immunity_duration", ConfigVal.num 720),
       ("efficacy", ConfigVal.table [("mean", 7 / 10), ("sd", 15 / 100)]),
       ("single_dose_protected", ConfigVal.num (7 / 10)),
       ("waning_rate", ConfigVal.num (38 / 1000)),
       ("onset_delay", ConfigVal.num 14)]
    ∧ get_configuration SCENARIO_SENSITIVITY_WANING = Except.ok
      [("immunity_duration", ConfigVal.num 720),
       ("efficacy", ConfigVal.table [("mean", 1 / 2), ("sd", 1 / 10)]),
       ("single_dose_protected", ConfigVal.num (7 / 10)),
       ("waning_rate", ConfigVal.num (134 / 10000)),
       ("onset_delay", ConfigVal.num 14)]
    ∧ get_configuration "emergency" = Except.error "Invalid scenario specified." :=
  ⟨rfl, rfl, by norm_num, rfl, rfl, rfl, rfl, rfl⟩

/-- Helper: a data list passes the range check iff, after year restriction,
no value is negative and no value is NaN or Inf. -/
theorem all_nonneg_notna (l : List DataRow) :
    (l.all fun r => decide (0 ≤ r.value) && !r.isNa) = true ↔
      ¬((l.any fun r => decide (r.value < 0)) = true)
      ∧ ¬((l.any fun r => r.isNa) = true) := by
  simp only [List.all_eq_true, List.any_eq_true, Bool.and_eq_true, decide_eq_true_eq,
    Bool.not_eq_true, Bool.not_eq_true', not_exists, not_and, not_lt]
  exact ⟨fun h => ⟨fun r hr => (h r hr).1, fun r hr => (h r hr).2⟩,
    fun h r hr => ⟨h.1 r hr, h.2 r hr⟩⟩

/-- C1 counterexample: a proportion series containing the value 1.2 passes
`validate_value_range` with only a debug log (no error is raised), and the
composed conditional second-dose coverage of the 9_12 schedule exceeds 1
without any setup-time error. -/
theorem C1_out_of_range_not_fatal :
    validate_value_range "covariate.dtp3_coverage_proportion.estimate"
      [{ year_start := 2025, value := 6 / 5, isNa := false }]
      = Except.ok ["Data for covariate.dtp3_coverage_proportion.estimate contains values above maximum."]
    ∧ (∃ l, get_dose_coverages SCHEDULE_NINE_TWELVE
          ({ cov6 := fun _ => 1 / 2, cov9 := fun _ => 1 / 2,
             cov12 := fun _ => 3 / 5, cov15 := fun _ => 3 / 5 } : CoverageData Unit) (1 / 3)
          = Except.ok l
        ∧ (l.lookup DOSE_SECOND).map (fun f => f ()) = some (6 / 5))
    ∧ (1 : ℚ) < 6 / 5 := by
  refine ⟨?_, ⟨_, rfl, ?_⟩, by norm_num⟩
  · have hmax : maxValueFor "covariate.dtp3_coverage_proportion.estimate" = some 1 := rfl
    simp only [validate_value_range, hmax]
    norm_num [List.filter_cons, List.filter_nil, List.any_cons, List.any_nil]
    rfl
  · calc (List.lookup DOSE_SECOND
          [(DOSE_FIRST, fun _ : Unit => (1 : ℚ) / 2),
           (DOSE_SECOND, fun y : Unit => ((3 : ℚ) / 5) / ((1 : ℚ) / 2)),
           (DOSE_CATCHUP, fun _ : Unit => (1 : ℚ) / 3)]).map (fun f => f ())
        = some (((3 : ℚ) / 5) / ((1 : ℚ) / 2)) := rfl
      _ = some ((6 : ℚ) / 5) := by norm_num

/-- C1 amended: for every entity key with a recorded maximum,
`validate_value_range` succeeds iff, after restricting to years at or
after 2025, no value is negative and none is NaN or Inf; values above the
maximum (such as a proportion of 1.2) never cause an error. -/
theorem C1_range_check_characterization (entity_key : String) (data : List DataRow)
    (m : ℚ) (h : maxValueFor entity_key = some m) :
    exceptIsOk (validate_value_range entity_key data) = true ↔
      ((data.filter fun r => decide (2025 ≤ r.year_start)).all
          fun r => decide (0 ≤ r.value) && !r.isNa) = true := by
  rw [all_nonneg_notna]
  simp only [validate_value_range, h]
  split_ifs with h1 h2 h3
  · exact iff_of_false (by simp [exceptIsOk]) (fun hx => hx.1 h1)
  · exact iff_of_false (by simp [exceptIsOk]) (fun hx => hx.2 h2)
  · exact iff_of_true (by simp [exceptIsOk]) ⟨h1, h2⟩
  · exact iff_of_true (by simp [exceptIsOk]) ⟨h1, h2⟩

/-- C1 witness: the characterization applied to a proportion series
containing the out-of-range value 1.2, which passes the check. -/
theorem C1_range_check_characterization_witness :
    maxValueFor "proportion" = some 1
    ∧ (exceptIsOk (validate_value_range "proportion"
          [{ year_start := 2025, value := 6 / 5, isNa := false }]) = true ↔
        (([{ year_start := 2025, value := 6 / 5, isNa := false }] : List DataRow).filter
            (fun r => decide (2025 ≤ r.year_start))).all
          (fun r => decide (0 ≤ r.value) && !r.isNa) = true) :=
  ⟨rfl, C1_range_check_characterization "proportion"
    [{ year_start := 2025, value := 6 / 5, isNa := false }] 1 rfl⟩

/-- C2 counterexample: with `coverage[9] = 0.5`, `coverage[12] = 0.4`,
`coverage[15] = 0.3`, the code resolves the third-dose coverage to
`0.3 / 0.4 = 0.75`, while the claimed formula
`coverage[15] / (coverage[12] / coverage[9])` gives `0.375`. -/
theorem C2_third_dose_formula_refuted :
    (∃ l, get_dose_coverages SCHEDULE_NINE_TWELVE_FIFTEEN
        ({ cov6 := fun _ => 1 / 2, cov9 := fun _ => 1 / 2,
           cov12 := fun _ => 2 / 5, cov15 := fun _ => 3 / 10 } : CoverageData Unit) (1 / 3)
        = Except.ok l
      ∧ (l.lookup DOSE_THIRD).map (fun f => f ()) = some ((3 : ℚ) / 4))
    ∧ (3 : ℚ) / 4 ≠ (3 / 10) / ((2 / 5) / (1 / 2)) := by
  refine ⟨⟨_, rfl, ?_⟩, by norm_num⟩
  calc (List.lookup DOSE_THIRD
        [(DOSE_FIRST, fun _ : Unit => (1 : ℚ) / 2),
         (DOSE_SECOND, fun y : Unit => ((2 : ℚ) / 5) / ((1 : ℚ) / 2)),
         (DOSE_THIRD, fun y : Unit => ((3 : ℚ) / 10) / ((2 : ℚ) / 5)),
         (DOSE_CATCHUP, fun _ : Unit => (1 : ℚ) / 3),
         (DOSE_LATE_CATCHUP_MISSED_1, fun _ : Unit => (1 : ℚ) / 3),
         (DOSE_LATE_CATCHUP_MISSED_2, fun _ : Unit => (1 : ℚ) / 3),
         (DOSE_LATE_CATCHUP_MISSED_1_2, fun _ : Unit => (1 : ℚ) / 3)]).map (fun f => f ())
      = some (((3 : ℚ) / 10) / ((2 : ℚ) / 5)) := rfl
    _ = some ((3 : ℚ) / 4) := by norm_num

/-- C2 amended: for the 9_12_15 schedule the resolved coverages are
`first = coverage[9]`, `second = coverage[12] / coverage[9]` and
`third = coverage[15] / coverage[12]` (the raw 15-month coverage divided by
the raw 12-month coverage), for every year. -/
theorem C2_dose_coverage_composition {ι : Type} (cov : CoverageData ι) (catchup : ℚ) (y : ι) :
    ∃ l, get_dose_coverages SCHEDULE_NINE_TWELVE_FIFTEEN cov catchup = Except.ok l
      ∧ (l.lookup DOSE_FIRST).map (fun f => f y) = some (cov.cov9 y)
      ∧ (l.lookup DOSE_SECOND).map (fun f => f y) = some (cov.cov12 y / cov.cov9 y)
      ∧ (l.lookup DOSE_THIRD).map (fun f => f y) = some (cov.cov15 y / cov.cov12 y) :=
  ⟨_, rfl, rfl, rfl, rfl⟩

/-- C2 amended witness: the composition at a concrete coverage table. -/
theorem C2_dose_coverage_composition_witness :
    ∃ l, get_dose_coverages SCHEDULE_NINE_TWELVE_FIFTEEN
        ({ cov6 := fun _ => 1 / 2, cov9 := fun _ => 1 / 2,
           cov12 := fun _ => 2 / 5, cov15 := fun _ => 3 / 10 } : CoverageData Unit) (1 / 3)
        = Except.ok l
      ∧ (l.lookup DOSE_FIRST).map (fun f => f ()) = some ((1 : ℚ) / 2)
      ∧ (l.lookup DOSE_SECOND).map (fun f => f ()) = some ((2 / 5 : ℚ) / (1 / 2))
      ∧ (l.lookup DOSE_THIRD).map (fun f => f ()) = some ((3 / 10 : ℚ) / (2 / 5)) :=
  C2_dose_coverage_composition
    ({ cov6 := fun _ => 1 / 2, cov9 := fun _ => 1 / 2,
       cov12 := fun _ => 2 / 5, cov15 := fun _ => 3 / 10 } : CoverageData Unit) (1 / 3) ()

end ShigellaVaccine
